import Mathlib

/-!
Verification of `scripts/esCleaner.py`, a retention runner that deletes
Elasticsearch indices older than a fixed threshold.

The script is embedded shallowly: the external collaborators
(`elasticsearch.Elasticsearch`, `curator.IndexList`, `filter_by_age`,
`DeleteIndices.do_action`) are an environment of oracles, the script's own
control flow (`main` and its helper `empty_list`) is translated line by
line, and a run is summarised by the trace of observable events (stdout
prints, collaborator calls) together with the process outcome (an exit
code, or termination by an unhandled exception).
-/

namespace EsCleaner

/-- A Python exception as visible at this component's boundary: either the
curator `NoIndices` signal or any other error, carried with a message. -/
inductive PyError where
  | noIndices
  | other (msg : String)
deriving DecidableEq

/-- The keyword arguments of the `filter_by_age` call, as a record:
`source`, `direction`, `timestring`, `unit`, `unit_count`. -/
structure FilterConfig where
  source : String
  direction : String
  timestring : String
  unit : String
  unit_count : Nat
deriving DecidableEq

/-- Observable events of a run: a line printed to stdout, an attempt to
construct the cluster client with an endpoint list, an invocation of the
age filter with its configuration, and an invocation of the delete action
with the index list it is handed. -/
inductive Event where
  | printed (s : String)
  | connectAttempt (endpoints : List String)
  | filterAttempt (cfg : FilterConfig)
  | deleteAttempt (indices : List String)
deriving DecidableEq

/-- How the process terminates: a `sys.exit`/normal return with an exit
code, or an unhandled exception propagating to the process boundary. -/
inductive Outcome where
  | exited (code : Nat)
  | unhandled (e : PyError)
deriving DecidableEq

/-- The external collaborators (elasticsearch client and curator library),
as oracles. Each call either succeeds with its result or raises. -/
structure Env where
  /-- `elasticsearch.Elasticsearch(endpoints)`. -/
  connect : List String → Except PyError Unit
  /-- `curator.IndexList(client)`: the enumerated index names. -/
  index_list : Except PyError (List String)
  /-- `ilo.filter_by_age(...)`: given the call's keyword arguments and the
  current index list, the surviving index list (curator mutates `ilo` in
  place; the result list models the post-call contents). -/
  filter_by_age : FilterConfig → List String → Except PyError (List String)
  /-- `curator.DeleteIndices(ilo).do_action()`: `none` means success,
  `some e` means the call raised `e`. -/
  do_action : List String → Option PyError

/-- The usage message: `'USAGE: %s HOSTNAME[:PORT] ...' % sys.argv[0]`. -/
def usageMsg (argv0 : String) : String :=
  "USAGE: " ++ argv0 ++ " HOSTNAME[:PORT] ..."

/-- Modelled from the spec: curator's `IndexList.empty_list_check`, which
is not part of this repository. Per the collaborator contract it "fails
with a 'no indices' signal when empty": it raises `NoIndices` exactly when
the working list is empty, and returns normally otherwise. -/
def empty_list_check (ilo : List String) : Option PyError :=
  if ilo.isEmpty then some PyError.noIndices else none

/-- The script's helper `empty_list(ilo, error_msg)`: calls
`ilo.empty_list_check()` and catches exactly `curator.NoIndices`, printing
`error_msg` and exiting 0; any other exception propagates. Returns the
events it emits and `some outcome` when it terminates the process. -/
def empty_list (ilo : List String) (error_msg : String) :
    List Event × Option Outcome :=
  match empty_list_check ilo with
  | some PyError.noIndices => ([Event.printed error_msg], some (Outcome.exited 0))
  | some e => ([], some (Outcome.unhandled e))
  | none => ([], none)

/-- The constant keyword arguments of the script's single `filter_by_age`
call: `source='name', direction='older', timestring='%Y-%m-%d',
unit='days', unit_count=4`. -/
def ageFilterArgs : FilterConfig :=
  { source := "name", direction := "older", timestring := "%Y-%m-%d",
    unit := "days", unit_count := 4 }

/-- The script's `main()`, translated line by line. `argv0` is the program
name `sys.argv[0]` and `args` is `sys.argv[1:]` (so Python's
`len(sys.argv) == 1` test is `args.isEmpty`). The result is the trace of
observable events and the process outcome. -/
def main (argv0 : String) (args : List String) (env : Env) :
    List Event × Outcome :=
  if args.isEmpty then
    ([Event.printed (usageMsg argv0)], Outcome.exited 1)
  else
    match env.connect args with
    | Except.error e => ([Event.connectAttempt args], Outcome.unhandled e)
    | Except.ok _ =>
      match env.index_list with
      | Except.error e => ([Event.connectAttempt args], Outcome.unhandled e)
      | Except.ok ilo =>
        let r1 := empty_list ilo "ElasticSearch has no indices"
        match r1.2 with
        | some out => (Event.connectAttempt args :: r1.1, out)
        | none =>
          match env.filter_by_age ageFilterArgs ilo with
          | Except.error e =>
            (Event.connectAttempt args :: r1.1 ++ [Event.filterAttempt ageFilterArgs],
             Outcome.unhandled e)
          | Except.ok filtered =>
            let r2 := empty_list filtered "No indices to delete"
            match r2.2 with
            | some out =>
              (Event.connectAttempt args :: r1.1 ++ [Event.filterAttempt ageFilterArgs] ++ r2.1,
               out)
            | none =>
              match env.do_action filtered with
              | some e =>
                (Event.connectAttempt args :: r1.1 ++ [Event.filterAttempt ageFilterArgs] ++
                   r2.1 ++ [Event.deleteAttempt filtered],
                 Outcome.unhandled e)
              | none =>
                (Event.connectAttempt args :: r1.1 ++ [Event.filterAttempt ageFilterArgs] ++
                   r2.1 ++ [Event.deleteAttempt filtered],
                 Outcome.exited 0)

/-- Fold a list of decimal digit characters into a number. -/
def digitsToNat (cs : List Char) : Nat :=
  cs.foldl (fun a c => a * 10 + (c.toNat - 48)) 0

/-- Split off exactly `n` characters, failing when fewer remain. -/
def takeExact (n : Nat) (cs : List Char) : Option (List Char × List Char) :=
  if cs.length < n then none else some (cs.take n, cs.drop n)

/-- Try to read a `YYYY-MM-DD` date at the very start of `cs`:
four digits, a dash, two digits, a dash, two digits. -/
def tryParseDate (cs : List Char) : Option (Nat × Nat × Nat) :=
  match takeExact 4 cs with
  | none => none
  | some (ys, cs1) =>
    if ys.all Char.isDigit then
      match cs1 with
      | '-' :: cs2 =>
        match takeExact 2 cs2 with
        | none => none
        | some (ms, cs3) =>
          if ms.all Char.isDigit then
            match cs3 with
            | '-' :: cs4 =>
              match takeExact 2 cs4 with
              | none => none
              | some (ds, _) =>
                if ds.all Char.isDigit then
                  some (digitsToNat ys, digitsToNat ms, digitsToNat ds)
                else none
            | _ => none
          else none
      | _ => none
    else none

/-- First `YYYY-MM-DD` date embedded anywhere in the character list. -/
def findDate : List Char → Option (Nat × Nat × Nat)
  | [] => none
  | c :: cs =>
    match tryParseDate (c :: cs) with
    | some d => some d
    | none => findDate cs

/-- Days since 1970-01-01 of a proleptic-Gregorian civil date
(the standard days-from-civil computation). -/
def daysFromCivil (y m d : Int) : Int :=
  let y1 : Int := if m ≤ 2 then y - 1 else y
  let era : Int := (if 0 ≤ y1 then y1 else y1 - 399) / 400
  let yoe : Int := y1 - era * 400
  let mp : Int := if 2 < m then m - 3 else m + 9
  let doy : Int := (153 * mp + 2) / 5 + d - 1
  let doe : Int := yoe * 365 + yoe / 4 - yoe / 100 + doy
  era * 146097 + doe - 719468

/-- Modelled from the spec: curator's `filter_by_age` for the one
configuration the script uses (`source='name'`, `direction='older'`,
`timestring='%Y-%m-%d'`, `unit='days'`), which is not part of this
repository. It keeps every index whose name embeds a `YYYY-MM-DD` date
strictly older than `unit_count` days before `now` (given in days), and
drops names with no embedded date. -/
def filter_by_age_model (now : Int) (unit_count : Nat)
    (names : List String) : List String :=
  names.filter fun nm =>
    match findDate nm.data with
    | some (y, m, d) =>
      decide (daysFromCivil (Int.ofNat y) (Int.ofNat m) (Int.ofNat d) +
        (unit_count : Int) < now)
    | none => false

/-- The literal scenario's "now": 2023-01-10, in days. -/
def litNow : Int := daysFromCivil 2023 1 10

/-- Environment of the literal scenario: the cluster holds
`logs-2023-01-01`, `logs-2023-01-05`, `logs-2023-01-10`; connection and
deletion succeed; the age filter behaves per `filter_by_age_model` with
"now" = 2023-01-10. -/
def litEnv : Env where
  connect := fun _ => Except.ok ()
  index_list := Except.ok ["logs-2023-01-01", "logs-2023-01-05", "logs-2023-01-10"]
  filter_by_age := fun cfg ilo => Except.ok (filter_by_age_model litNow cfg.unit_count ilo)
  do_action := fun _ => none

/-- Environment of a cluster with no indices at all: enumeration
succeeds and returns the empty collection. -/
def emptyEnv : Env where
  connect := fun _ => Except.ok ()
  index_list := Except.ok []
  filter_by_age := fun cfg ilo => Except.ok (filter_by_age_model litNow cfg.unit_count ilo)
  do_action := fun _ => none

/-- Environment of a cluster whose indices are all fresh: enumeration is
non-empty but the age filter (with "now" = 2023-01-10) keeps nothing. -/
def freshEnv : Env where
  connect := fun _ => Except.ok ()
  index_list := Except.ok ["logs-2023-01-09", "logs-2023-01-10"]
  filter_by_age := fun cfg ilo => Except.ok (filter_by_age_model litNow cfg.unit_count ilo)
  do_action := fun _ => none

/-- Environment whose client construction raises a (non-`NoIndices`)
connection error. -/
def errEnv : Env where
  connect := fun _ => Except.error (PyError.other "connection refused")
  index_list := Except.ok []
  filter_by_age := fun _ ilo => Except.ok ilo
  do_action := fun _ => none

/-- Environment whose delete action raises the `NoIndices` signal
itself. -/
def delErrEnv : Env where
  connect := fun _ => Except.ok ()
  index_list := Except.ok ["logs-2023-01-01"]
  filter_by_age := fun _ ilo => Except.ok ilo
  do_action := fun _ => some PyError.noIndices

/-- Recognizer of the two informational messages of the script. -/
def isInfoMsg : Event → Bool
  | Event.printed s =>
      s == "ElasticSearch has no indices" || s == "No indices to delete"
  | _ => false

lemma empty_list_nil (msg : String) :
    empty_list [] msg = ([Event.printed msg], some (Outcome.exited 0)) := rfl

lemma empty_list_cons (a : String) (l : List String) (msg : String) :
    empty_list (a :: l) msg = ([], none) := rfl

/-- Branch-by-branch characterization of `main`, used by the theorems
below: each leaf exposes the full event trace and outcome. -/
lemma main_spec (argv0 : String) (args : List String) (env : Env) :
    main argv0 args env =
      if args.isEmpty then
        ([Event.printed (usageMsg argv0)], Outcome.exited 1)
      else
        match env.connect args with
        | Except.error e => ([Event.connectAttempt args], Outcome.unhandled e)
        | Except.ok _ =>
          match env.index_list with
          | Except.error e => ([Event.connectAttempt args], Outcome.unhandled e)
          | Except.ok ilo =>
            if ilo.isEmpty then
              ([Event.connectAttempt args,
                Event.printed "ElasticSearch has no indices"], Outcome.exited 0)
            else
              match env.filter_by_age ageFilterArgs ilo with
              | Except.error e =>
                ([Event.connectAttempt args, Event.filterAttempt ageFilterArgs],
                 Outcome.unhandled e)
              | Except.ok filtered =>
                if filtered.isEmpty then
                  ([Event.connectAttempt args, Event.filterAttempt ageFilterArgs,
                    Event.printed "No indices to delete"], Outcome.exited 0)
                else
                  match env.do_action filtered with
                  | some e =>
                    ([Event.connectAttempt args, Event.filterAttempt ageFilterArgs,
                      Event.deleteAttempt filtered], Outcome.unhandled e)
                  | none =>
                    ([Event.connectAttempt args, Event.filterAttempt ageFilterArgs,
                      Event.deleteAttempt filtered], Outcome.exited 0) := by
  rcases args with _ | ⟨a, as⟩
  · rfl
  · show main argv0 (a :: as) env = _
    unfold main
    simp only [List.isEmpty_cons, Bool.false_eq_true, if_false]
    rcases hc : env.connect (a :: as) with e | u
    · rfl
    · rcases hi : env.index_list with e | ilo
      · rfl
      · rcases ilo with _ | ⟨b, bs⟩
        · rfl
        · simp only [empty_list_cons, List.isEmpty_cons, Bool.false_eq_true, if_false,
            List.nil_append]
          rcases hf : env.filter_by_age ageFilterArgs (b :: bs) with e | filtered
          · rfl
          · rcases filtered with _ | ⟨c, cs⟩
            · rfl
            · simp only [empty_list_cons, List.isEmpty_cons, Bool.false_eq_true, if_false,
                List.nil_append]
              rcases hd : env.do_action (c :: cs) with _ | e <;> rfl

/-- C1: whenever the enumerated index list is non-empty and the age filter
leaves a non-empty collection, the run's trace contains exactly one delete
invocation, whose payload is exactly the filtered collection, and the
process exits 0 when the delete action completes without error. -/
theorem delete_called_exactly_once (argv0 : String) (args ilo filtered : List String)
    (env : Env)
    (hargs : args ≠ [])
    (hconn : env.connect args = Except.ok ())
    (henum : env.index_list = Except.ok ilo)
    (hilo : ilo ≠ [])
    (hfilt : env.filter_by_age ageFilterArgs ilo = Except.ok filtered)
    (hfne : filtered ≠ []) :
    (main argv0 args env).1 =
      [Event.connectAttempt args, Event.filterAttempt ageFilterArgs,
       Event.deleteAttempt filtered]
    ∧ (env.do_action filtered = none →
        (main argv0 args env).2 = Outcome.exited 0) := by
  obtain ⟨a, as, rfl⟩ := List.exists_cons_of_ne_nil hargs
  obtain ⟨b, bs, rfl⟩ := List.exists_cons_of_ne_nil hilo
  obtain ⟨c, cs, rfl⟩ := List.exists_cons_of_ne_nil hfne
  rcases hdel : env.do_action (c :: cs) with _ | e
  · exact ⟨by simp [main_spec, hconn, henum, hfilt, hdel],
      fun _ => by simp [main_spec, hconn, henum, hfilt, hdel]⟩
  · exact ⟨by simp [main_spec, hconn, henum, hfilt, hdel],
      fun h => by simp [hdel] at h⟩

/-- Witness for C1 at the literal environment: applies
`delete_called_exactly_once` with concrete inputs. -/
theorem delete_called_exactly_once_witness :
    (main "esCleaner.py" ["es1:9200"] litEnv).1 =
      [Event.connectAttempt ["es1:9200"], Event.filterAttempt ageFilterArgs,
       Event.deleteAttempt ["logs-2023-01-01", "logs-2023-01-05"]]
    ∧ (litEnv.do_action ["logs-2023-01-01", "logs-2023-01-05"] = none →
        (main "esCleaner.py" ["es1:9200"] litEnv).2 = Outcome.exited 0) :=
  delete_called_exactly_once "esCleaner.py" ["es1:9200"]
    ["logs-2023-01-01", "logs-2023-01-05", "logs-2023-01-10"]
    ["logs-2023-01-01", "logs-2023-01-05"] litEnv
    (List.cons_ne_nil _ _) rfl rfl (List.cons_ne_nil _ _) rfl
    (List.cons_ne_nil _ _)

/-- C2: when endpoints are supplied, the client is constructed, and
enumeration returns the empty collection, the run prints
"ElasticSearch has no indices", exits 0, and its trace contains no filter
invocation and no delete invocation. -/
theorem empty_cluster_exits_zero (argv0 : String) (args : List String) (env : Env)
    (hargs : args ≠ [])
    (hconn : env.connect args = Except.ok ())
    (henum : env.index_list = Except.ok []) :
    main argv0 args env =
      ([Event.connectAttempt args, Event.printed "ElasticSearch has no indices"],
       Outcome.exited 0)
    ∧ (∀ cfg, Event.filterAttempt cfg ∉ (main argv0 args env).1)
    ∧ (∀ l, Event.deleteAttempt l ∉ (main argv0 args env).1) := by
  obtain ⟨a, as, rfl⟩ := List.exists_cons_of_ne_nil hargs
  refine ⟨by simp [main_spec, hconn, henum], ?_, ?_⟩ <;>
    intro x <;> simp [main_spec, hconn, henum]

/-- Witness for C2 at the empty-cluster environment: applies
`empty_cluster_exits_zero` with concrete inputs. -/
theorem empty_cluster_exits_zero_witness :
    main "esCleaner.py" ["es1:9200"] emptyEnv =
      ([Event.connectAttempt ["es1:9200"],
        Event.printed "ElasticSearch has no indices"], Outcome.exited 0)
    ∧ (∀ cfg, Event.filterAttempt cfg ∉ (main "esCleaner.py" ["es1:9200"] emptyEnv).1)
    ∧ (∀ l, Event.deleteAttempt l ∉ (main "esCleaner.py" ["es1:9200"] emptyEnv).1) :=
  empty_cluster_exits_zero "esCleaner.py" ["es1:9200"] emptyEnv
    (List.cons_ne_nil _ _) rfl rfl

/-- C3: when enumeration is non-empty but the age filter yields the empty
collection, the run prints "No indices to delete", exits 0, and its trace
contains no delete invocation. -/
theorem empty_filter_exits_zero (argv0 : String) (args ilo : List String) (env : Env)
    (hargs : args ≠ [])
    (hconn : env.connect args = Except.ok ())
    (henum : env.index_list = Except.ok ilo)
    (hilo : ilo ≠ [])
    (hfilt : env.filter_by_age ageFilterArgs ilo = Except.ok []) :
    main argv0 args env =
      ([Event.connectAttempt args, Event.filterAttempt ageFilterArgs,
        Event.printed "No indices to delete"], Outcome.exited 0)
    ∧ (∀ l, Event.deleteAttempt l ∉ (main argv0 args env).1) := by
  obtain ⟨a, as, rfl⟩ := List.exists_cons_of_ne_nil hargs
  obtain ⟨b, bs, rfl⟩ := List.exists_cons_of_ne_nil hilo
  refine ⟨by simp [main_spec, hconn, henum, hfilt], ?_⟩
  intro x
  simp [main_spec, hconn, henum, hfilt]

/-- Witness for C3 at the fresh-indices environment: applies
`empty_filter_exits_zero` with concrete inputs. -/
theorem empty_filter_exits_zero_witness :
    main "esCleaner.py" ["es1:9200"] freshEnv =
      ([Event.connectAttempt ["es1:9200"], Event.filterAttempt ageFilterArgs,
        Event.printed "No indices to delete"], Outcome.exited 0)
    ∧ (∀ l, Event.deleteAttempt l ∉ (main "esCleaner.py" ["es1:9200"] freshEnv).1) :=
  empty_filter_exits_zero "esCleaner.py" ["es1:9200"]
    ["logs-2023-01-09", "logs-2023-01-10"] freshEnv
    (List.cons_ne_nil _ _) rfl rfl (List.cons_ne_nil _ _) rfl

/-- C4: with zero endpoint arguments the run prints the usage line
(`USAGE: argv0 HOSTNAME[:PORT] ...`) to stdout, exits with status 1, and
its trace contains no cluster-connection attempt. -/
theorem no_args_usage_exit_one (argv0 : String) (env : Env) :
    main argv0 [] env = ([Event.printed (usageMsg argv0)], Outcome.exited 1)
    ∧ usageMsg argv0 = "USAGE: " ++ argv0 ++ " HOSTNAME[:PORT] ..."
    ∧ (∀ l, Event.connectAttempt l ∉ (main argv0 [] env).1) := by
  refine ⟨rfl, rfl, ?_⟩
  intro l
  simp [main, usageMsg]

/-- C5: when the connection, enumeration, filter, or delete step raises an
error other than the `NoIndices` signal, the error is not caught: the run
terminates in the unhandled state carrying that error, not with exit code
0, and neither informational message is printed. -/
theorem unhandled_error_propagates (argv0 : String) (args : List String)
    (env : Env) (e : PyError)
    (hargs : args ≠ [])
    (_hne : e ≠ PyError.noIndices)
    (herr : env.connect args = Except.error e
      ∨ (env.connect args = Except.ok () ∧ env.index_list = Except.error e)
      ∨ (∃ ilo, env.connect args = Except.ok () ∧ env.index_list = Except.ok ilo
          ∧ ilo ≠ [] ∧ env.filter_by_age ageFilterArgs ilo = Except.error e)
      ∨ (∃ ilo filtered, env.connect args = Except.ok ()
          ∧ env.index_list = Except.ok ilo ∧ ilo ≠ []
          ∧ env.filter_by_age ageFilterArgs ilo = Except.ok filtered
          ∧ filtered ≠ [] ∧ env.do_action filtered = some e)) :
    (main argv0 args env).2 = Outcome.unhandled e
    ∧ (main argv0 args env).2 ≠ Outcome.exited 0
    ∧ Event.printed "ElasticSearch has no indices" ∉ (main argv0 args env).1
    ∧ Event.printed "No indices to delete" ∉ (main argv0 args env).1 := by
  obtain ⟨a, as, rfl⟩ := List.exists_cons_of_ne_nil hargs
  rcases herr with hconn | ⟨hconn, henum⟩ | ⟨ilo, hconn, henum, hilo, hfilt⟩ |
    ⟨ilo, filtered, hconn, henum, hilo, hfilt, hfne, hdel⟩
  · refine ⟨?_, ?_, ?_, ?_⟩ <;> simp [main_spec, hconn]
  · refine ⟨?_, ?_, ?_, ?_⟩ <;> simp [main_spec, hconn, henum]
  · obtain ⟨b, bs, rfl⟩ := List.exists_cons_of_ne_nil hilo
    refine ⟨?_, ?_, ?_, ?_⟩ <;> simp [main_spec, hconn, henum, hfilt]
  · obtain ⟨b, bs, rfl⟩ := List.exists_cons_of_ne_nil hilo
    obtain ⟨c, cs, rfl⟩ := List.exists_cons_of_ne_nil hfne
    refine ⟨?_, ?_, ?_, ?_⟩ <;> simp [main_spec, hconn, henum, hfilt, hdel]

/-- Witness for C5 at an environment whose connection step fails: applies
`unhandled_error_propagates` with concrete inputs. -/
theorem unhandled_error_propagates_witness :
    (main "esCleaner.py" ["es1:9200"] errEnv).2 =
      Outcome.unhandled (PyError.other "connection refused")
    ∧ (main "esCleaner.py" ["es1:9200"] errEnv).2 ≠ Outcome.exited 0
    ∧ Event.printed "ElasticSearch has no indices" ∉
        (main "esCleaner.py" ["es1:9200"] errEnv).1
    ∧ Event.printed "No indices to delete" ∉
        (main "esCleaner.py" ["es1:9200"] errEnv).1 :=
  unhandled_error_propagates "esCleaner.py" ["es1:9200"] errEnv
    (PyError.other "connection refused") (List.cons_ne_nil _ _) (by decide)
    (Or.inl rfl)

/-- C6: every filter invocation in every run carries the one fixed
configuration `source='name', direction='older', timestring='%Y-%m-%d',
unit='days', unit_count=4` — independent of the arguments and of the
environment, hence not user-supplied. -/
theorem age_filter_args_fixed (argv0 : String) (args : List String) (env : Env)
    (cfg : FilterConfig)
    (h : Event.filterAttempt cfg ∈ (main argv0 args env).1) :
    cfg = { source := "name", direction := "older", timestring := "%Y-%m-%d",
            unit := "days", unit_count := 4 } := by
  rcases args with _ | ⟨a, as⟩
  · simp [main_spec] at h
  · rw [main_spec] at h
    simp only [List.isEmpty_cons, Bool.false_eq_true, if_false] at h
    rcases hc : env.connect (a :: as) with e | u <;> rw [hc] at h
    · simp at h
    · rcases hi : env.index_list with e | ilo <;> rw [hi] at h
      · simp at h
      · rcases ilo with _ | ⟨b, bs⟩
        · simp at h
        · simp only [List.isEmpty_cons, Bool.false_eq_true, if_false] at h
          rcases hf : env.filter_by_age ageFilterArgs (b :: bs) with e | filtered <;>
            rw [hf] at h
          · simp at h
            rw [h]; rfl
          · rcases filtered with _ | ⟨c, cs⟩
            · simp at h
              rw [h]; rfl
            · simp only [List.isEmpty_cons, Bool.false_eq_true, if_false] at h
              rcases hd : env.do_action (c :: cs) with _ | e <;> rw [hd] at h <;>
                simp at h <;> rw [h] <;> rfl

/-- Witness for C6 at the literal environment, where a filter invocation
occurs: applies `age_filter_args_fixed` with concrete inputs. -/
theorem age_filter_args_fixed_witness :
    Event.filterAttempt ageFilterArgs ∈ (main "esCleaner.py" ["es1:9200"] litEnv).1
    ∧ ageFilterArgs = { source := "name", direction := "older",
                        timestring := "%Y-%m-%d", unit := "days",
                        unit_count := 4 } :=
  ⟨by decide,
   age_filter_args_fixed "esCleaner.py" ["es1:9200"] litEnv ageFilterArgs (by decide)⟩

/-- C7: in the literal scenario — endpoints `["es1:9200"]`, cluster
indices `logs-2023-01-01`, `logs-2023-01-05`, `logs-2023-01-10`, "now" =
2023-01-10 — the run connects, filters, invokes the delete action exactly
once with exactly `["logs-2023-01-01", "logs-2023-01-05"]`, and exits 0. -/
theorem literal_run_deletes_old_indices :
    main "esCleaner.py" ["es1:9200"] litEnv =
      ([Event.connectAttempt ["es1:9200"], Event.filterAttempt ageFilterArgs,
        Event.deleteAttempt ["logs-2023-01-01", "logs-2023-01-05"]],
       Outcome.exited 0) := by
  decide

/-- C8: for every invocation with at least one argument, the endpoint list
handed to the client constructor is exactly `sys.argv[1:]`, verbatim and
in order: the trace contains a connection attempt with exactly `args`, and
every connection attempt in the trace carries exactly `args`. -/
theorem endpoints_passed_verbatim (argv0 : String) (args : List String) (env : Env)
    (hargs : args ≠ []) :
    Event.connectAttempt args ∈ (main argv0 args env).1
    ∧ (∀ l, Event.connectAttempt l ∈ (main argv0 args env).1 → l = args) := by
  obtain ⟨a, as, rfl⟩ := List.exists_cons_of_ne_nil hargs
  rw [main_spec]
  simp only [List.isEmpty_cons, Bool.false_eq_true, if_false]
  rcases hc : env.connect (a :: as) with e | u
  · constructor
    · simp
    · intro l hl; simpa using hl
  · rcases hi : env.index_list with e | ilo
    · constructor
      · simp
      · intro l hl; simpa using hl
    · rcases ilo with _ | ⟨b, bs⟩
      · constructor
        · simp
        · intro l hl; simpa using hl
      · simp only [List.isEmpty_cons, Bool.false_eq_true, if_false]
        rcases hf : env.filter_by_age ageFilterArgs (b :: bs) with e | filtered
        · constructor
          · simp
          · intro l hl; simpa using hl
        · rcases filtered with _ | ⟨c, cs⟩
          · constructor
            · simp
            · intro l hl; simpa using hl
          · simp only [List.isEmpty_cons, Bool.false_eq_true, if_false]
            rcases hd : env.do_action (c :: cs) with _ | e <;>
              exact ⟨by simp, fun l hl => by simpa using hl⟩

/-- Witness for C8 at the literal environment: applies
`endpoints_passed_verbatim` with concrete inputs. -/
theorem endpoints_passed_verbatim_witness :
    Event.connectAttempt ["es1:9200"] ∈ (main "esCleaner.py" ["es1:9200"] litEnv).1
    ∧ (∀ l, Event.connectAttempt l ∈ (main "esCleaner.py" ["es1:9200"] litEnv).1 →
        l = ["es1:9200"]) :=
  endpoints_passed_verbatim "esCleaner.py" ["es1:9200"] litEnv (List.cons_ne_nil _ _)

/-- C9: in every single run, at most one informational message
("ElasticSearch has no indices" / "No indices to delete") appears in the
trace: each empty-check exits the process immediately after printing, so
the two messages can never both be printed. -/
theorem at_most_one_info_message (argv0 : String) (args : List String) (env : Env) :
    ((main argv0 args env).1.filter isInfoMsg).length ≤ 1 := by
  rcases args with _ | ⟨a, as⟩
  · simpa using
      List.length_filter_le isInfoMsg [Event.printed (usageMsg argv0)]
  · rw [main_spec]
    simp only [List.isEmpty_cons, Bool.false_eq_true, if_false]
    rcases hc : env.connect (a :: as) with e | u
    · simp [isInfoMsg]
    · rcases hi : env.index_list with e | ilo
      · simp [isInfoMsg]
      · rcases ilo with _ | ⟨b, bs⟩
        · simp [isInfoMsg]
        · simp only [List.isEmpty_cons, Bool.false_eq_true, if_false]
          rcases hf : env.filter_by_age ageFilterArgs (b :: bs) with e | filtered
          · simp [isInfoMsg]
          · rcases filtered with _ | ⟨c, cs⟩
            · simp [isInfoMsg]
            · simp only [List.isEmpty_cons, Bool.false_eq_true, if_false]
              rcases hd : env.do_action (c :: cs) with _ | e <;> simp [isInfoMsg]

/-- C10: the `NoIndices` signal is converted to a success exit only at the
two empty-check checkpoints; when the delete action itself raises it, it
is not caught: the run ends unhandled with `NoIndices`, not with exit code
0, and neither informational message is printed. -/
theorem noIndices_from_delete_not_caught (argv0 : String)
    (args ilo filtered : List String) (env : Env)
    (hargs : args ≠ [])
    (hconn : env.connect args = Except.ok ())
    (henum : env.index_list = Except.ok ilo)
    (hilo : ilo ≠ [])
    (hfilt : env.filter_by_age ageFilterArgs ilo = Except.ok filtered)
    (hfne : filtered ≠ [])
    (hdel : env.do_action filtered = some PyError.noIndices) :
    (main argv0 args env).2 = Outcome.unhandled PyError.noIndices
    ∧ (main argv0 args env).2 ≠ Outcome.exited 0
    ∧ Event.printed "ElasticSearch has no indices" ∉ (main argv0 args env).1
    ∧ Event.printed "No indices to delete" ∉ (main argv0 args env).1 := by
  obtain ⟨a, as, rfl⟩ := List.exists_cons_of_ne_nil hargs
  obtain ⟨b, bs, rfl⟩ := List.exists_cons_of_ne_nil hilo
  obtain ⟨c, cs, rfl⟩ := List.exists_cons_of_ne_nil hfne
  refine ⟨?_, ?_, ?_, ?_⟩ <;> simp [main_spec, hconn, henum, hfilt, hdel]

/-- Witness for C10 at an environment whose delete action raises
`NoIndices`: applies `noIndices_from_delete_not_caught` with concrete
inputs. -/
theorem noIndices_from_delete_not_caught_witness :
    (main "esCleaner.py" ["es1:9200"] delErrEnv).2 =
      Outcome.unhandled PyError.noIndices
    ∧ (main "esCleaner.py" ["es1:9200"] delErrEnv).2 ≠ Outcome.exited 0
    ∧ Event.printed "ElasticSearch has no indices" ∉
        (main "esCleaner.py" ["es1:9200"] delErrEnv).1
    ∧ Event.printed "No indices to delete" ∉
        (main "esCleaner.py" ["es1:9200"] delErrEnv).1 :=
  noIndices_from_delete_not_caught "esCleaner.py" ["es1:9200"]
    ["logs-2023-01-01"] ["logs-2023-01-01"] delErrEnv
    (List.cons_ne_nil _ _) rfl rfl (List.cons_ne_nil _ _) rfl
    (List.cons_ne_nil _ _) rfl

end EsCleaner
